import Mathlib

/-!
# Verification of the PC pre-validation stage service

Shallow embedding of
`fbpcs/private_computation/service/input_data_validation_stage_service.py`
and the exit behaviour of `fbpcs/pc_pre_validation/pc_pre_validation_cli.py`,
with theorems checking the natural-language specification against the code.

Conventions of the embedding:
* Python objects become Lean structures; the mutable append to
  `pc_instance.instances` becomes a functional update returning the new
  instance.
* The OneDocker collaborator is a structure of functions supplied from
  outside (its internals are external to this repository).
* Calls that can raise (`containers[-1]` on an empty list raises
  `IndexError`) return `Except String _`.
* Logging at error level inside `get_status` is modelled as a list of
  emitted message strings, returned alongside the status.
-/

namespace FBPCS

/-- Roles of a private computation instance
(`PrivateComputationRole`; only the two roles exist). -/
inductive PrivateComputationRole where
  | PUBLISHER
  | PARTNER
deriving DecidableEq, Repr

/-- The statuses of `PrivateComputationInstanceStatus` that this stage
service mentions, plus representative others (`CREATED`,
`INPUT_DATA_VALIDATION_STARTED`) so that "some other status" is expressible. -/
inductive PrivateComputationInstanceStatus where
  | CREATED
  | INPUT_DATA_VALIDATION_STARTED
  | INPUT_DATA_VALIDATION_COMPLETED
  | INPUT_DATA_VALIDATION_FAILED
deriving DecidableEq, Repr

/-- A started container (`ContainerInstance` from fbpcp): an identifier and a
last-known status string. -/
structure ContainerInstance where
  instance_id : String
  status : String
deriving DecidableEq, Repr

/-- `StageStateInstance`: owning instance id, stage name, and the launched
containers.  An element is `Option ContainerInstance` because the source
guards against a falsy (`None`) container entry
(`... if last_container else ""`). -/
structure StageStateInstance where
  instance_id : String
  stage_name : String
  containers : List (Option ContainerInstance)
deriving DecidableEq, Repr

/-- An element of `pc_instance.instances`: the history is heterogeneous in the
source (`isinstance(last_instance, StageStateInstance)` is checked), so we
model it as a StageState record or some other kind of record. -/
inductive PCInstanceEntry where
  | stageState (s : StageStateInstance)
  | other
deriving DecidableEq, Repr

/-- `PrivateComputationInstance`: the fields this stage service reads or
writes.  `current_stage_name` stands for `pc_instance.current_stage.name`. -/
structure PrivateComputationInstance where
  instance_id : String
  role : PrivateComputationRole
  input_path : String
  current_stage_name : String
  instances : List PCInstanceEntry
deriving DecidableEq, Repr

/-- `PCValidatorConfig`: region, enabled flag, and the optional
validator-name → threshold-override mapping.  The mapping is modelled as an
ordered association list (Python dicts preserve insertion order); the numeric
threshold is carried as its decimal rendering (the characters Python's
`json.dumps` would emit for the float), since only the serialized text matters
here.  An absent (`None`) mapping and an empty one behave identically under
Python truthiness, so both are `[]`. -/
structure PCValidatorConfig where
  region : String
  pc_pre_validator_enabled : Bool
  data_validation_threshold_overrides : List (String × String)
deriving DecidableEq, Repr

/-- The arguments of one `onedocker_svc.start_container(...)` call. -/
structure StartCall where
  package_name : String
  timeout : Nat
  cmd_args : String
deriving DecidableEq, Repr

/-- `OneDockerService` collaborator: `start_container` and the cluster name
reachable through `container_svc.get_cluster()`.  Both are external; the
embedding takes them as arbitrary functions/values. -/
structure OneDockerService where
  start_container : StartCall → ContainerInstance
  cluster : String

/-- `PRE_VALIDATION_CHECKS_TIMEOUT: int = 1200`  (20 minutes). -/
def PRE_VALIDATION_CHECKS_TIMEOUT : Nat := 1200

/-- `OneDockerBinaryNames.PC_PRE_VALIDATION.value`; defined outside the two
source files, its exact text is immaterial to every claim. -/
def PC_PRE_VALIDATION_PACKAGE : String := "validation/pc_pre_validation_cli"

/-- `InputDataValidationStageService._should_run_pre_validation`:
`self._pc_validator_config.pc_pre_validator_enabled and
 pc_instance.role == PrivateComputationRole.PARTNER`. -/
def should_run_pre_validation (cfg : PCValidatorConfig)
    (pc_instance : PrivateComputationInstance) : Bool :=
  cfg.pc_pre_validator_enabled &&
    (pc_instance.role == PrivateComputationRole.PARTNER)

/-- The entries of Python's `json.dumps` applied to a string-keyed mapping in
insertion order with the default separators `(", ", ": ")`: each entry is
`"key": value` and entries are joined by `", "`.  Keys are emitted verbatim
(faithful as long as they need no JSON escaping, see `wf_overrides`), values
are the numeral text of the threshold. -/
def json_dumps_entries : List (String × String) → List Char
  | [] => []
  | (k, v) :: rest =>
    '"' :: (k.data ++ '"' :: ':' :: ' ' :: v.data ++
      (match rest with
       | [] => []
       | _ :: _ => ',' :: ' ' :: json_dumps_entries rest))

/-- `json.dumps(threshold_overrides)`: the entries wrapped in braces. -/
def json_dumps (m : List (String × String)) : String :=
  String.mk ('\x7b' :: (json_dumps_entries m ++ ['\x7d']))

/-- The `cmd_args` list built by `run_pc_pre_validation_cli`: the three
mandatory arguments in order, then, when the override mapping is truthy
(non-empty), the single-quoted JSON flag. -/
def build_cmd_args (cfg : PCValidatorConfig)
    (pc_instance : PrivateComputationInstance) : List String :=
  let cmd_args :=
    ["--input-file-path=" ++ pc_instance.input_path,
     "--cloud-provider=AWS",
     "--region=" ++ cfg.region]
  if cfg.data_validation_threshold_overrides = [] then
    cmd_args
  else
    cmd_args ++
      ["--valid-threshold-override=\x27" ++
        json_dumps cfg.data_validation_threshold_overrides ++ "\x27"]

/-- `InputDataValidationStageService.run_pc_pre_validation_cli`: builds the
command string, starts the container, and appends one `StageStateInstance`
holding that container to the instance's history.  The first component
records the arguments of the `start_container` call (the source returns
`None`; the call record is exposed so the launch can be observed). -/
def run_pc_pre_validation_cli (cfg : PCValidatorConfig)
    (svc : OneDockerService) (pc_instance : PrivateComputationInstance) :
    StartCall × PrivateComputationInstance :=
  let cmd_args_str := String.intercalate " " (build_cmd_args cfg pc_instance)
  let call : StartCall :=
    ⟨PC_PRE_VALIDATION_PACKAGE, PRE_VALIDATION_CHECKS_TIMEOUT, cmd_args_str⟩
  let container_instance := svc.start_container call
  let stage_state : StageStateInstance :=
    ⟨pc_instance.instance_id, pc_instance.current_stage_name,
      [some container_instance]⟩
  (call,
    { pc_instance with
        instances := pc_instance.instances ++ [.stageState stage_state] })

/-- `InputDataValidationStageService.run_async`: runs the CLI when the gate
allows it, otherwise skips.  The first component is the launch performed
(`none` when skipped); the second is the returned instance. -/
def run_async (cfg : PCValidatorConfig) (svc : OneDockerService)
    (pc_instance : PrivateComputationInstance) :
    Option StartCall × PrivateComputationInstance :=
  if should_run_pre_validation cfg pc_instance then
    let r := run_pc_pre_validation_cli cfg svc pc_instance
    (some r.1, r.2)
  else
    (none, pc_instance)

/-- Helper for `instance_id.split("/")[-1]`: the characters after the last
`/` of the string (the whole string when no `/` occurs, the empty string for
the empty string or a trailing `/`) — exactly the last element of Python's
`split("/")`, which is never the empty list. -/
def py_split_last_aux : List Char → List Char → List Char
  | [], acc => acc
  | c :: cs, acc =>
    if c = '/' then py_split_last_aux cs []
    else py_split_last_aux cs (acc ++ [c])

/-- `s.split("/")[-1]` from the source's task-id extraction. -/
def py_split_last (s : String) : String :=
  String.mk (py_split_last_aux s.data [])

/-- The message of the `IndexError` raised by `containers[-1]` on an empty
list. -/
def INDEX_ERROR_MESSAGE : String := "IndexError: list index out of range"

/-- The task-id extraction block of `get_status`: `task_id` starts as `""`;
when the history is non-empty and its last record is a `StageStateInstance`,
`last_container = last_instance.containers[-1]` (an `IndexError` when
`containers` is empty), and
`task_id = last_container.instance_id.split("/")[-1] if last_container else ""`. -/
def extract_task_id (pc_instance : PrivateComputationInstance) :
    Except String String :=
  match pc_instance.instances.getLast? with
  | none => .ok ""
  | some .other => .ok ""
  | some (.stageState last_instance) =>
    match last_instance.containers.getLast? with
    | none => .error INDEX_ERROR_MESSAGE
    | some none => .ok ""
    | some (some last_container) =>
      .ok (py_split_last last_container.instance_id)

/-- The fixed ECS console-link template of `get_status`, with region, cluster
and task id interpolated. -/
def failed_task_link (region cluster task_id : String) : String :=
  "https://" ++ region ++ ".console.aws.amazon.com/ecs/home?region=" ++
    region ++ "#/clusters/" ++ cluster ++ "/tasks/" ++ task_id ++ "/details"

/-- The error log emitted when the stage failed and a task id is available. -/
def failed_validation_error_message (task_id link : String) : String :=
  "[PCPreValidation] - stage failed because of some failed validations. Please check the logs in ECS for task id \x27" ++
    task_id ++ "\x27 to see the validation issues:\n" ++
    ("Failed task link: " ++ link)

/-- The generic error log emitted when the stage failed and no task id is
available. -/
def GENERIC_FAILED_MESSAGE : String :=
  "[PCPreValidation] - stage failed because of some failed validations. Please check the logs in ECS"

/-- `InputDataValidationStageService.get_status`.  The collaborator
`get_pc_status_from_stage_state` (defined outside this service) is passed as
a function; the returned list is the error-level log messages emitted.
`Except.error` models the `IndexError` escaping from the task-id extraction. -/
def get_status (cfg : PCValidatorConfig) (svc : OneDockerService)
    (get_pc_status_from_stage_state :
      PrivateComputationInstance → PrivateComputationInstanceStatus)
    (pc_instance : PrivateComputationInstance) :
    Except String (PrivateComputationInstanceStatus × List String) :=
  if should_run_pre_validation cfg pc_instance then
    let instance_status := get_pc_status_from_stage_state pc_instance
    match extract_task_id pc_instance with
    | .error e => .error e
    | .ok task_id =>
      if instance_status = .INPUT_DATA_VALIDATION_FAILED ∧ task_id ≠ "" then
        let link := failed_task_link cfg.region svc.cluster task_id
        .ok (instance_status, [failed_validation_error_message task_id link])
      else if instance_status = .INPUT_DATA_VALIDATION_FAILED then
        .ok (instance_status, [GENERIC_FAILED_MESSAGE])
      else
        .ok (instance_status, [])
  else
    .ok (.INPUT_DATA_VALIDATION_COMPLETED, [])

/-- Splits a character list at the first character satisfying `stop`:
returns the prefix before it and the remainder beginning with it, or `none`
when no such character occurs. -/
def spanUntil (stop : Char → Bool) : List Char → Option (List Char × List Char)
  | [] => none
  | c :: cs =>
    if stop c then some ([], c :: cs)
    else
      match spanUntil stop cs with
      | none => none
      | some (pre, rest) => some (c :: pre, rest)

/-- Recursive-descent reader for the object-entry grammar produced by
`json_dumps_entries`: `"key": value` entries separated by `", "`, closed by
the final brace.  `fuel` bounds the recursion by the input length. -/
def parse_entries : Nat → List Char → Option (List (String × String))
  | 0, _ => none
  | Nat.succ fuel, cs =>
    match cs with
    | '"' :: cs1 =>
      match spanUntil (fun c => c == '"') cs1 with
      | some (key, '"' :: ':' :: ' ' :: cs2) =>
        match spanUntil (fun c => c == ',' || c == '\x7d') cs2 with
        | some (val, '\x7d' :: []) => some [(String.mk key, String.mk val)]
        | some (val, ',' :: ' ' :: cs3) =>
          match parse_entries fuel cs3 with
          | some entries => some ((String.mk key, String.mk val) :: entries)
          | none => none
        | _ => none
      | _ => none
    | _ => none

/-- JSON reading of the serialized override object: accepts exactly the
brace-wrapped entry list and returns the ordered key/value pairs. -/
def json_parse (s : String) : Option (List (String × String)) :=
  match s.data with
  | ['\x7b', '\x7d'] => some []
  | '\x7b' :: cs => parse_entries cs.length cs
  | _ => none

/-- A key that Python's `json.dumps` emits verbatim (no `\`-escaping): no
quote, no backslash, no control character. -/
def wf_key (k : String) : Prop :=
  ∀ c ∈ k.data, c ≠ '"' ∧ c ≠ '\\' ∧ 0x20 ≤ c.toNat

/-- A value text that is the rendering of a JSON number (as `json.dumps`
produces for a float threshold). -/
def wf_val (v : String) : Prop :=
  ∀ c ∈ v.data,
    c.isDigit ∨ c = '.' ∨ c = '-' ∨ c = '+' ∨ c = 'e' ∨ c = 'E'

/-- Well-formed override mapping: every key and value as above. -/
def wf_overrides (m : List (String × String)) : Prop :=
  ∀ p ∈ m, wf_key p.1 ∧ wf_val p.2

/-- Modelled from the spec: `fbpcs/pc_pre_validation/enums.py` is not among
the source files; §6 gives `Result ∈ \x7bSUCCESS, FAILED, UNKNOWN\x7d`. -/
inductive ValidationResult where
  | SUCCESS
  | FAILED
  | UNKNOWN
deriving DecidableEq, Repr

/-- Observable terminations of the CLI's `main`: an exception carrying a
message (failure signal), or a printed success message with a clean exit. -/
inductive CliOutcome where
  | raised (message : String)
  | printedSuccess (message : String)
deriving DecidableEq, Repr

/-- The tail of `pc_pre_validation_cli.main` after `run_validators` returned
`(aggregated_result, aggregated_report)`: raise on `FAILED`, print on
`SUCCESS`, raise the (non-f-string) unknown-result message otherwise. -/
def cli_main_exit (aggregated_result : ValidationResult)
    (aggregated_report : String) : CliOutcome :=
  if aggregated_result = ValidationResult.FAILED then
    .raised aggregated_report
  else if aggregated_result = ValidationResult.SUCCESS then
    .printedSuccess ("Success: " ++ aggregated_report)
  else
    .raised ("Unknown validation result: \x7baggregated_result\x7d.\n" ++
      "Validation report: \x7baggregated_report\x7d")

/-- **C1.** The stage gate is a pure predicate: it is true iff the config's
`pc_pre_validator_enabled` flag is true and the instance's role is `PARTNER`,
and its value depends on no state other than those two fields (any two
config/instance pairs agreeing on the enabled flag and the role get the same
answer). -/
theorem should_run_pre_validation_spec
    (cfg cfg' : PCValidatorConfig)
    (inst inst' : PrivateComputationInstance)
    (henabled : cfg.pc_pre_validator_enabled = cfg'.pc_pre_validator_enabled)
    (hrole : inst.role = inst'.role) :
    (should_run_pre_validation cfg inst = true ↔
      cfg.pc_pre_validator_enabled = true ∧
        inst.role = PrivateComputationRole.PARTNER) ∧
    should_run_pre_validation cfg inst =
      should_run_pre_validation cfg' inst' := by
  constructor
  · simp [should_run_pre_validation]
  · simp [should_run_pre_validation, henabled, hrole]

/-- Witness for C1 at a concrete enabled/PARTNER input. -/
theorem should_run_pre_validation_spec_witness :
    should_run_pre_validation
      ⟨"us-east-1", true, []⟩
      ⟨"instance_1", .PARTNER, "/data/x.csv", "PC_PRE_VALIDATION", []⟩ = true := by
  have h := should_run_pre_validation_spec
    ⟨"us-east-1", true, []⟩ ⟨"us-east-1", true, []⟩
    ⟨"instance_1", .PARTNER, "/data/x.csv", "PC_PRE_VALIDATION", []⟩
    ⟨"instance_1", .PARTNER, "/data/x.csv", "PC_PRE_VALIDATION", []⟩
    rfl rfl
  exact h.1.mpr ⟨rfl, rfl⟩

/-- **C2.** When the gate is true, `run_async` performs a launch and appends
exactly one `StageState` record to the instance's history (all other fields
unchanged); when the gate is false, no launch is performed, nothing is
appended, and the instance is returned unchanged. -/
theorem run_async_history_spec (cfg : PCValidatorConfig)
    (svc : OneDockerService) (pc_instance : PrivateComputationInstance) :
    (should_run_pre_validation cfg pc_instance = true →
      ∃ call stage_state,
        run_async cfg svc pc_instance =
          (some call,
            { pc_instance with
                instances :=
                  pc_instance.instances ++
                    [PCInstanceEntry.stageState stage_state] })) ∧
    (should_run_pre_validation cfg pc_instance = false →
      run_async cfg svc pc_instance = (none, pc_instance)) := by
  constructor
  · intro h
    refine ⟨⟨PC_PRE_VALIDATION_PACKAGE, PRE_VALIDATION_CHECKS_TIMEOUT,
        String.intercalate " " (build_cmd_args cfg pc_instance)⟩,
      ⟨pc_instance.instance_id, pc_instance.current_stage_name,
        [some (svc.start_container ⟨PC_PRE_VALIDATION_PACKAGE,
          PRE_VALIDATION_CHECKS_TIMEOUT,
          String.intercalate " " (build_cmd_args cfg pc_instance)⟩)]⟩, ?_⟩
    simp [run_async, h, run_pc_pre_validation_cli]
  · intro h
    simp [run_async, h]

/-- Witness for C2: a gate-true run appends one StageState record; a
gate-false run (validator disabled) returns the instance unchanged. -/
theorem run_async_history_spec_witness :
    (∃ call stage_state,
      run_async ⟨"us-east-1", true, []⟩
          ⟨fun _ => ⟨"cluster/task1", "STARTED"⟩, "my-cluster"⟩
          ⟨"instance_1", .PARTNER, "/data/x.csv", "PC_PRE_VALIDATION", []⟩ =
        (some call,
          { (⟨"instance_1", .PARTNER, "/data/x.csv", "PC_PRE_VALIDATION",
              []⟩ : PrivateComputationInstance) with
              instances :=
                ([] : List PCInstanceEntry) ++
                  [PCInstanceEntry.stageState stage_state] })) ∧
    run_async ⟨"us-east-1", false, []⟩
        ⟨fun _ => ⟨"cluster/task1", "STARTED"⟩, "my-cluster"⟩
        ⟨"instance_1", .PARTNER, "/data/x.csv", "PC_PRE_VALIDATION", []⟩ =
      (none,
        ⟨"instance_1", .PARTNER, "/data/x.csv", "PC_PRE_VALIDATION", []⟩) := by
  constructor
  · exact (run_async_history_spec ⟨"us-east-1", true, []⟩
      ⟨fun _ => ⟨"cluster/task1", "STARTED"⟩, "my-cluster"⟩
      ⟨"instance_1", .PARTNER, "/data/x.csv", "PC_PRE_VALIDATION", []⟩).1 rfl
  · exact (run_async_history_spec ⟨"us-east-1", false, []⟩
      ⟨fun _ => ⟨"cluster/task1", "STARTED"⟩, "my-cluster"⟩
      ⟨"instance_1", .PARTNER, "/data/x.csv", "PC_PRE_VALIDATION", []⟩).2 rfl

/-- **C3.** With input path `/data/x.csv`, region `us-east-1` and no
threshold overrides, the command string handed to the backend is exactly the
three mandatory arguments in order joined by single spaces, and the timeout
passed is the fixed constant `PRE_VALIDATION_CHECKS_TIMEOUT = 1200`. -/
theorem cmd_args_encoding_spec (cfg : PCValidatorConfig)
    (svc : OneDockerService) (pc_instance : PrivateComputationInstance)
    (hpath : pc_instance.input_path = "/data/x.csv")
    (hregion : cfg.region = "us-east-1")
    (hoverrides : cfg.data_validation_threshold_overrides = []) :
    (run_pc_pre_validation_cli cfg svc pc_instance).1.cmd_args =
      "--input-file-path=/data/x.csv --cloud-provider=AWS --region=us-east-1" ∧
    (run_pc_pre_validation_cli cfg svc pc_instance).1.timeout =
      PRE_VALIDATION_CHECKS_TIMEOUT ∧
    PRE_VALIDATION_CHECKS_TIMEOUT = 1200 := by
  refine ⟨?_, rfl, rfl⟩
  simp only [run_pc_pre_validation_cli, build_cmd_args, hpath, hregion,
    hoverrides, if_pos rfl]
  rfl

/-- Witness for C3 at a concrete config and instance. -/
theorem cmd_args_encoding_spec_witness :
    (run_pc_pre_validation_cli ⟨"us-east-1", true, []⟩
        ⟨fun _ => ⟨"cluster/task1", "STARTED"⟩, "my-cluster"⟩
        ⟨"instance_1", .PARTNER, "/data/x.csv", "PC_PRE_VALIDATION",
          []⟩).1.cmd_args =
      "--input-file-path=/data/x.csv --cloud-provider=AWS --region=us-east-1" ∧
    (run_pc_pre_validation_cli ⟨"us-east-1", true, []⟩
        ⟨fun _ => ⟨"cluster/task1", "STARTED"⟩, "my-cluster"⟩
        ⟨"instance_1", .PARTNER, "/data/x.csv", "PC_PRE_VALIDATION",
          []⟩).1.timeout = PRE_VALIDATION_CHECKS_TIMEOUT ∧
    PRE_VALIDATION_CHECKS_TIMEOUT = 1200 :=
  cmd_args_encoding_spec ⟨"us-east-1", true, []⟩
    ⟨fun _ => ⟨"cluster/task1", "STARTED"⟩, "my-cluster"⟩
    ⟨"instance_1", .PARTNER, "/data/x.csv", "PC_PRE_VALIDATION", []⟩
    rfl rfl rfl

/-- `spanUntil` splits exactly at the first stopping character. -/
theorem spanUntil_append (stop : Char → Bool) (pre : List Char) (d : Char)
    (rest : List Char) (hpre : ∀ c ∈ pre, stop c = false)
    (hd : stop d = true) :
    spanUntil stop (pre ++ d :: rest) = some (pre, d :: rest) := by
  induction pre with
  | nil => simp [spanUntil, hd]
  | cons c cs ih =>
    have hc : stop c = false := hpre c (List.mem_cons_self c cs)
    have ih' := ih (fun x hx => hpre x (List.mem_cons_of_mem c hx))
    simp [spanUntil, hc, ih']

/-- Characters of a JSON-number rendering are neither `,` nor the closing
brace. -/
theorem wf_val_char_no_stop (c : Char)
    (h : c.isDigit ∨ c = '.' ∨ c = '-' ∨ c = '+' ∨ c = 'e' ∨ c = 'E') :
    (c == ',' || c == '\x7d') = false := by
  have h1 : c ≠ ',' := by rintro rfl; revert h; decide
  have h2 : c ≠ '\x7d' := by rintro rfl; revert h; decide
  simp [h1, h2]

/-- Characters of a well-formed key never stop the key scan early. -/
theorem wf_key_char_no_quote (k : String) (hk : wf_key k) :
    ∀ c ∈ k.data, (c == '"') = false := by
  intro c hc
  simp [(hk c hc).1]

/-- Each serialized entry takes at least one character. -/
theorem json_dumps_entries_length (m : List (String × String)) :
    m.length ≤ (json_dumps_entries m).length := by
  induction m with
  | nil => simp [json_dumps_entries]
  | cons p rest ih =>
    obtain ⟨k, v⟩ := p
    cases rest with
    | nil => simp [json_dumps_entries]
    | cons q rest' =>
      simp only [json_dumps_entries, List.length_cons, List.length_append,
        List.length_cons] at ih ⊢
      omega

/-- The entry reader inverts the entry serializer on every non-empty
well-formed mapping, given enough fuel. -/
theorem parse_entries_inverts (fuel : Nat) :
    ∀ m : List (String × String), m ≠ [] → wf_overrides m →
      m.length ≤ fuel →
      parse_entries fuel (json_dumps_entries m ++ ['\x7d']) = some m := by
  induction fuel with
  | zero =>
    intro m hne _ hlen
    cases m with
    | nil => exact absurd rfl hne
    | cons p rest => simp at hlen
  | succ fuel ih =>
    intro m hne hwf hlen
    cases m with
    | nil => exact absurd rfl hne
    | cons p rest =>
      obtain ⟨k, v⟩ := p
      have hk : wf_key k := (hwf (k, v) (List.mem_cons_self _ _)).1
      have hv : wf_val v := (hwf (k, v) (List.mem_cons_self _ _)).2
      cases rest with
      | nil =>
        have hshape : json_dumps_entries [(k, v)] ++ ['\x7d'] =
            '"' :: (k.data ++ '"' ::
              (':' :: ' ' :: (v.data ++ '\x7d' :: []))) := by
          simp [json_dumps_entries, List.append_assoc]
        rw [hshape]
        have h1 := spanUntil_append (fun c => c == '"') k.data '"'
          (':' :: ' ' :: (v.data ++ '\x7d' :: []))
          (wf_key_char_no_quote k hk) (by decide)
        have h2 := spanUntil_append (fun c => c == ',' || c == '\x7d')
          v.data '\x7d' []
          (fun c hc => wf_val_char_no_stop c (hv c hc)) (by decide)
        simp [parse_entries, h1, h2]
      | cons q rest' =>
        have hne' : q :: rest' ≠ [] := by simp
        have hwf' : wf_overrides (q :: rest') :=
          fun p hp => hwf p (List.mem_cons_of_mem _ hp)
        have hlen' : (q :: rest').length ≤ fuel := by
          simp only [List.length_cons] at hlen ⊢
          omega
        have hshape : json_dumps_entries ((k, v) :: q :: rest') ++ ['\x7d'] =
            '"' :: (k.data ++ '"' :: (':' :: ' ' :: (v.data ++ ',' ::
              (' ' :: (json_dumps_entries (q :: rest') ++ ['\x7d']))))) := by
          simp [json_dumps_entries, List.append_assoc]
        rw [hshape]
        have h1 := spanUntil_append (fun c => c == '"') k.data '"'
          (':' :: ' ' :: (v.data ++ ',' ::
            (' ' :: (json_dumps_entries (q :: rest') ++ ['\x7d']))))
          (wf_key_char_no_quote k hk) (by decide)
        have h2 := spanUntil_append (fun c => c == ',' || c == '\x7d')
          v.data ','
          (' ' :: (json_dumps_entries (q :: rest') ++ ['\x7d']))
          (fun c hc => wf_val_char_no_stop c (hv c hc)) (by decide)
        have h3 := ih (q :: rest') hne' hwf' hlen'
        simp [parse_entries, h1, h2, h3]

/-- Reading back the serialized override object returns the original ordered
mapping. -/
theorem json_parse_json_dumps (m : List (String × String)) (hne : m ≠ [])
    (hwf : wf_overrides m) : json_parse (json_dumps m) = some m := by
  cases m with
  | nil => exact absurd rfl hne
  | cons p rest =>
    obtain ⟨k, v⟩ := p
    obtain ⟨t, ht⟩ : ∃ t, json_dumps_entries ((k, v) :: rest) = '"' :: t :=
      ⟨_, rfl⟩
    have hlen : ((k, v) :: rest).length ≤
        (json_dumps_entries ((k, v) :: rest) ++ ['\x7d']).length := by
      have h := json_dumps_entries_length ((k, v) :: rest)
      simp only [List.length_cons] at h
      simp only [List.length_append, List.length_cons, List.length_nil]
      omega
    have hmain := parse_entries_inverts
      ((json_dumps_entries ((k, v) :: rest) ++ ['\x7d']).length)
      ((k, v) :: rest) (by simp) hwf hlen
    rw [ht] at hmain
    show json_parse (String.mk
      ('\x7b' :: (json_dumps_entries ((k, v) :: rest) ++ ['\x7d']))) = _
    rw [ht]
    simp only [List.cons_append] at hmain ⊢
    simpa [json_parse] using hmain

/-- **C4.** For every non-empty (well-formed, i.e. JSON-escape-free)
threshold-override mapping, the built command ends with the single segment
`--valid-threshold-override='<json>'` where `<json>` is the mapping
serialized in storage order, and reading that JSON payload back yields a
mapping equal to the original (round-trip); with an absent/empty mapping no
such segment is appended. -/
theorem threshold_override_segment_spec (cfg : PCValidatorConfig)
    (pc_instance : PrivateComputationInstance) :
    (cfg.data_validation_threshold_overrides ≠ [] →
      wf_overrides cfg.data_validation_threshold_overrides →
      build_cmd_args cfg pc_instance =
        ["--input-file-path=" ++ pc_instance.input_path,
         "--cloud-provider=AWS",
         "--region=" ++ cfg.region,
         "--valid-threshold-override=\x27" ++
           json_dumps cfg.data_validation_threshold_overrides ++ "\x27"] ∧
      json_parse (json_dumps cfg.data_validation_threshold_overrides) =
        some cfg.data_validation_threshold_overrides) ∧
    (cfg.data_validation_threshold_overrides = [] →
      build_cmd_args cfg pc_instance =
        ["--input-file-path=" ++ pc_instance.input_path,
         "--cloud-provider=AWS",
         "--region=" ++ cfg.region]) := by
  constructor
  · intro hne hwf
    constructor
    · simp [build_cmd_args, hne]
    · exact json_parse_json_dumps _ hne hwf
  · intro hempty
    simp [build_cmd_args, hempty]

/-- Witness for C4 at the mapping `\x7b"minCoverage": 0.9\x7d` and, for the
empty arm, the empty mapping. -/
theorem threshold_override_segment_spec_witness :
    (build_cmd_args ⟨"us-east-1", true, [("minCoverage", "0.9")]⟩
        ⟨"instance_1", .PARTNER, "/data/x.csv", "PC_PRE_VALIDATION", []⟩ =
      ["--input-file-path=" ++ "/data/x.csv",
       "--cloud-provider=AWS",
       "--region=" ++ "us-east-1",
       "--valid-threshold-override=\x27" ++
         json_dumps [("minCoverage", "0.9")] ++ "\x27"] ∧
    json_parse (json_dumps [("minCoverage", "0.9")]) =
      some [("minCoverage", "0.9")]) ∧
    build_cmd_args ⟨"us-east-1", true, []⟩
        ⟨"instance_1", .PARTNER, "/data/x.csv", "PC_PRE_VALIDATION", []⟩ =
      ["--input-file-path=" ++ "/data/x.csv",
       "--cloud-provider=AWS",
       "--region=" ++ "us-east-1"] := by
  constructor
  · exact (threshold_override_segment_spec
      ⟨"us-east-1", true, [("minCoverage", "0.9")]⟩
      ⟨"instance_1", .PARTNER, "/data/x.csv", "PC_PRE_VALIDATION", []⟩).1
      (by simp) (by unfold wf_overrides wf_key wf_val; decide)
  · exact (threshold_override_segment_spec
      ⟨"us-east-1", true, []⟩
      ⟨"instance_1", .PARTNER, "/data/x.csv", "PC_PRE_VALIDATION", []⟩).2 rfl

/-- **C5.** When the gate is false, `get_status` returns the fixed terminal
success status immediately — a constant, independent of the history and of
the status-aggregation collaborator.  When the gate is true, whatever status
`get_status` returns is exactly the collaborator's status, in every branch
(diagnostic construction only adds log messages, never changes the value). -/
theorem get_status_value_spec (cfg : PCValidatorConfig)
    (svc : OneDockerService)
    (f g : PrivateComputationInstance → PrivateComputationInstanceStatus)
    (pc_instance : PrivateComputationInstance) :
    (should_run_pre_validation cfg pc_instance = false →
      get_status cfg svc f pc_instance =
        .ok (.INPUT_DATA_VALIDATION_COMPLETED, []) ∧
      get_status cfg svc f pc_instance = get_status cfg svc g pc_instance) ∧
    (should_run_pre_validation cfg pc_instance = true →
      ∀ st logs, get_status cfg svc f pc_instance = Except.ok (st, logs) →
        st = f pc_instance) := by
  constructor
  · intro h
    constructor <;> simp [get_status, h]
  · intro h st logs hok
    simp only [get_status, h, if_true] at hok
    cases hex : extract_task_id pc_instance with
    | error e =>
      simp only [hex] at hok
      exact absurd hok (by simp)
    | ok task_id =>
      simp only [hex] at hok
      split at hok
      · simp only [Except.ok.injEq, Prod.mk.injEq] at hok
        exact hok.1.symm
      · split at hok
        · simp only [Except.ok.injEq, Prod.mk.injEq] at hok
          exact hok.1.symm
        · simp only [Except.ok.injEq, Prod.mk.injEq] at hok
          exact hok.1.symm

/-- Witness for C5: a disabled config returns the terminal success status for
any collaborator; an enabled PARTNER instance returns the collaborator's
status. -/
theorem get_status_value_spec_witness :
    (get_status ⟨"us-east-1", false, []⟩
        ⟨fun _ => ⟨"cluster/task1", "STARTED"⟩, "my-cluster"⟩
        (fun _ => PrivateComputationInstanceStatus.CREATED)
        ⟨"instance_1", .PARTNER, "/data/x.csv", "PC_PRE_VALIDATION", []⟩ =
      .ok (.INPUT_DATA_VALIDATION_COMPLETED, []) ∧
     get_status ⟨"us-east-1", false, []⟩
        ⟨fun _ => ⟨"cluster/task1", "STARTED"⟩, "my-cluster"⟩
        (fun _ => PrivateComputationInstanceStatus.CREATED)
        ⟨"instance_1", .PARTNER, "/data/x.csv", "PC_PRE_VALIDATION", []⟩ =
      get_status ⟨"us-east-1", false, []⟩
        ⟨fun _ => ⟨"cluster/task1", "STARTED"⟩, "my-cluster"⟩
        (fun _ => PrivateComputationInstanceStatus.INPUT_DATA_VALIDATION_FAILED)
        ⟨"instance_1", .PARTNER, "/data/x.csv", "PC_PRE_VALIDATION", []⟩) ∧
    PrivateComputationInstanceStatus.INPUT_DATA_VALIDATION_COMPLETED =
      (fun _ => PrivateComputationInstanceStatus.INPUT_DATA_VALIDATION_COMPLETED)
        (⟨"instance_1", .PARTNER, "/data/x.csv", "PC_PRE_VALIDATION",
          []⟩ : PrivateComputationInstance) := by
  constructor
  · exact (get_status_value_spec ⟨"us-east-1", false, []⟩
      ⟨fun _ => ⟨"cluster/task1", "STARTED"⟩, "my-cluster"⟩
      (fun _ => PrivateComputationInstanceStatus.CREATED)
      (fun _ => PrivateComputationInstanceStatus.INPUT_DATA_VALIDATION_FAILED)
      ⟨"instance_1", .PARTNER, "/data/x.csv", "PC_PRE_VALIDATION", []⟩).1 rfl
  · exact (get_status_value_spec ⟨"us-east-1", true, []⟩
      ⟨fun _ => ⟨"cluster/task1", "STARTED"⟩, "my-cluster"⟩
      (fun _ => PrivateComputationInstanceStatus.INPUT_DATA_VALIDATION_COMPLETED)
      (fun _ => PrivateComputationInstanceStatus.INPUT_DATA_VALIDATION_COMPLETED)
      ⟨"instance_1", .PARTNER, "/data/x.csv", "PC_PRE_VALIDATION", []⟩).2 rfl
      .INPUT_DATA_VALIDATION_COMPLETED [] rfl

/-- **C6.** With region `us-east-1`, cluster `my-cluster`, failure status, and
a last container identifier ending in `/abc123`, the extracted task id is
`abc123` and the emitted diagnostic contains exactly the templated link with
those three values substituted. -/
theorem failed_task_link_spec :
    py_split_last "arn:aws:ecs:us-east-1:123456789:task/my-cluster/abc123" =
      "abc123" ∧
    failed_task_link "us-east-1" "my-cluster" "abc123" =
      "https://us-east-1.console.aws.amazon.com/ecs/home?region=us-east-1#/clusters/my-cluster/tasks/abc123/details" ∧
    get_status ⟨"us-east-1", true, []⟩
        ⟨fun _ => ⟨"cluster/task1", "STARTED"⟩, "my-cluster"⟩
        (fun _ => PrivateComputationInstanceStatus.INPUT_DATA_VALIDATION_FAILED)
        ⟨"instance_1", .PARTNER, "/data/x.csv", "PC_PRE_VALIDATION",
          [.stageState ⟨"instance_1", "PC_PRE_VALIDATION",
            [some ⟨"arn:aws:ecs:us-east-1:123456789:task/my-cluster/abc123",
              "COMPLETED"⟩]⟩]⟩ =
      .ok (.INPUT_DATA_VALIDATION_FAILED,
        [failed_validation_error_message "abc123"
          "https://us-east-1.console.aws.amazon.com/ecs/home?region=us-east-1#/clusters/my-cluster/tasks/abc123/details"]) := by
  refine ⟨rfl, rfl, rfl⟩

/-- `split("/")[-1]` keeps accumulating when no separator occurs. -/
theorem py_split_last_aux_no_sep (cs : List Char) :
    ∀ acc : List Char, (∀ c ∈ cs, c ≠ '/') →
      py_split_last_aux cs acc = acc ++ cs := by
  induction cs with
  | nil => intro acc _; simp [py_split_last_aux]
  | cons c cs' ih =>
    intro acc h
    have hc : c ≠ '/' := h c (List.mem_cons_self c cs')
    have ih' := ih (acc ++ [c]) (fun x hx => h x (List.mem_cons_of_mem c hx))
    simp [py_split_last_aux, hc, ih']

/-- On a separator-free identifier, `split("/")[-1]` is the whole
identifier. -/
theorem py_split_last_no_sep (s : String) (h : ∀ c ∈ s.data, c ≠ '/') :
    py_split_last s = s := by
  rw [py_split_last, py_split_last_aux_no_sep s.data [] h]
  rfl

/-- Counterexample to C7: the last container's identifier `abc123` has no
`/`, the failure status is reached, and `get_status` nevertheless extracts
the whole identifier as the task id and logs the diagnostic-link message,
not the generic one. -/
theorem no_separator_id_counterexample :
    py_split_last "abc123" = "abc123" ∧
    get_status ⟨"us-east-1", true, []⟩
        ⟨fun _ => ⟨"cluster/task1", "STARTED"⟩, "my-cluster"⟩
        (fun _ => PrivateComputationInstanceStatus.INPUT_DATA_VALIDATION_FAILED)
        ⟨"instance_1", .PARTNER, "/data/x.csv", "PC_PRE_VALIDATION",
          [.stageState ⟨"instance_1", "PC_PRE_VALIDATION",
            [some ⟨"abc123", "COMPLETED"⟩]⟩]⟩ =
      .ok (.INPUT_DATA_VALIDATION_FAILED,
        [failed_validation_error_message "abc123"
          (failed_task_link "us-east-1" "my-cluster" "abc123")]) ∧
    failed_validation_error_message "abc123"
        (failed_task_link "us-east-1" "my-cluster" "abc123") ≠
      GENERIC_FAILED_MESSAGE := by
  refine ⟨rfl, rfl, by decide⟩

/-- **C7 (amended).** For a last job handle whose identifier contains no `/`:
when the identifier is non-empty, the extracted task id is the whole
identifier and, on failure status, the diagnostic-link message (not the
generic one) is logged with that task id; the generic message is logged only
when the identifier is empty. -/
theorem no_separator_id_amended (cfg : PCValidatorConfig)
    (svc : OneDockerService)
    (f : PrivateComputationInstance → PrivateComputationInstanceStatus)
    (pc_instance : PrivateComputationInstance) (ss : StageStateInstance)
    (c : ContainerInstance)
    (hrun : should_run_pre_validation cfg pc_instance = true)
    (hfail : f pc_instance =
      PrivateComputationInstanceStatus.INPUT_DATA_VALIDATION_FAILED)
    (hlast : pc_instance.instances.getLast? =
      some (PCInstanceEntry.stageState ss))
    (hcont : ss.containers.getLast? = some (some c))
    (hnosep : ∀ ch ∈ c.instance_id.data, ch ≠ '/') :
    (c.instance_id ≠ "" →
      get_status cfg svc f pc_instance =
        .ok (.INPUT_DATA_VALIDATION_FAILED,
          [failed_validation_error_message c.instance_id
            (failed_task_link cfg.region svc.cluster c.instance_id)])) ∧
    (c.instance_id = "" →
      get_status cfg svc f pc_instance =
        .ok (.INPUT_DATA_VALIDATION_FAILED, [GENERIC_FAILED_MESSAGE])) := by
  have hextract : extract_task_id pc_instance = .ok c.instance_id := by
    simp only [extract_task_id, hlast, hcont, py_split_last_no_sep _ hnosep]
  constructor
  · intro hne
    rw [get_status, hrun]
    simp only [if_true, hextract]
    rw [if_pos ⟨hfail, hne⟩, hfail]
  · intro hempty
    rw [get_status, hrun]
    simp only [if_true, hextract]
    rw [if_neg (by simp [hempty]), if_pos hfail, hfail]

/-- Witness for the amended C7 at a concrete separator-free identifier and a
concrete empty identifier. -/
theorem no_separator_id_amended_witness :
    get_status ⟨"us-east-1", true, []⟩
        ⟨fun _ => ⟨"cluster/task1", "STARTED"⟩, "my-cluster"⟩
        (fun _ => PrivateComputationInstanceStatus.INPUT_DATA_VALIDATION_FAILED)
        ⟨"instance_1", .PARTNER, "/data/x.csv", "PC_PRE_VALIDATION",
          [.stageState ⟨"instance_1", "PC_PRE_VALIDATION",
            [some ⟨"abc123", "COMPLETED"⟩]⟩]⟩ =
      .ok (.INPUT_DATA_VALIDATION_FAILED,
        [failed_validation_error_message "abc123"
          (failed_task_link "us-east-1" "my-cluster" "abc123")]) ∧
    get_status ⟨"us-east-1", true, []⟩
        ⟨fun _ => ⟨"cluster/task1", "STARTED"⟩, "my-cluster"⟩
        (fun _ => PrivateComputationInstanceStatus.INPUT_DATA_VALIDATION_FAILED)
        ⟨"instance_1", .PARTNER, "/data/x.csv", "PC_PRE_VALIDATION",
          [.stageState ⟨"instance_1", "PC_PRE_VALIDATION",
            [some ⟨"", "COMPLETED"⟩]⟩]⟩ =
      .ok (.INPUT_DATA_VALIDATION_FAILED, [GENERIC_FAILED_MESSAGE]) := by
  constructor
  · exact (no_separator_id_amended ⟨"us-east-1", true, []⟩
      ⟨fun _ => ⟨"cluster/task1", "STARTED"⟩, "my-cluster"⟩
      (fun _ => PrivateComputationInstanceStatus.INPUT_DATA_VALIDATION_FAILED)
      ⟨"instance_1", .PARTNER, "/data/x.csv", "PC_PRE_VALIDATION",
        [.stageState ⟨"instance_1", "PC_PRE_VALIDATION",
          [some ⟨"abc123", "COMPLETED"⟩]⟩]⟩
      ⟨"instance_1", "PC_PRE_VALIDATION", [some ⟨"abc123", "COMPLETED"⟩]⟩
      ⟨"abc123", "COMPLETED"⟩ rfl rfl rfl rfl (by decide)).1 (by decide)
  · exact (no_separator_id_amended ⟨"us-east-1", true, []⟩
      ⟨fun _ => ⟨"cluster/task1", "STARTED"⟩, "my-cluster"⟩
      (fun _ => PrivateComputationInstanceStatus.INPUT_DATA_VALIDATION_FAILED)
      ⟨"instance_1", .PARTNER, "/data/x.csv", "PC_PRE_VALIDATION",
        [.stageState ⟨"instance_1", "PC_PRE_VALIDATION",
          [some ⟨"", "COMPLETED"⟩]⟩]⟩
      ⟨"instance_1", "PC_PRE_VALIDATION", [some ⟨"", "COMPLETED"⟩]⟩
      ⟨"", "COMPLETED"⟩ rfl rfl rfl rfl (by decide)).2 rfl

/-- Counterexample to C8: a last StageState with an **empty** containers
sequence makes `get_status` fail with the `IndexError` of `containers[-1]`
instead of treating it as "no task id available". -/
theorem empty_containers_counterexample :
    get_status ⟨"us-east-1", true, []⟩
        ⟨fun _ => ⟨"cluster/task1", "STARTED"⟩, "my-cluster"⟩
        (fun _ => PrivateComputationInstanceStatus.INPUT_DATA_VALIDATION_FAILED)
        ⟨"instance_1", .PARTNER, "/data/x.csv", "PC_PRE_VALIDATION",
          [.stageState ⟨"instance_1", "PC_PRE_VALIDATION", []⟩]⟩ =
      .error INDEX_ERROR_MESSAGE := by
  rfl

/-- **C8 (amended).** A missing (falsy/`None`) last handle in the last
StageState record is treated as "no task id available" (empty task id, only
the generic diagnostic on failure status); but an **empty** containers
sequence is not guarded: there `get_status` fails with the `IndexError` of
`containers[-1]`. -/
theorem missing_handle_amended (cfg : PCValidatorConfig)
    (svc : OneDockerService)
    (f : PrivateComputationInstance → PrivateComputationInstanceStatus)
    (pc_instance : PrivateComputationInstance) (ss : StageStateInstance)
    (hlast : pc_instance.instances.getLast? =
      some (PCInstanceEntry.stageState ss)) :
    (ss.containers.getLast? = some none →
      extract_task_id pc_instance = .ok "" ∧
      (should_run_pre_validation cfg pc_instance = true →
        f pc_instance =
          PrivateComputationInstanceStatus.INPUT_DATA_VALIDATION_FAILED →
        get_status cfg svc f pc_instance =
          .ok (.INPUT_DATA_VALIDATION_FAILED, [GENERIC_FAILED_MESSAGE]))) ∧
    (ss.containers = [] →
      should_run_pre_validation cfg pc_instance = true →
      get_status cfg svc f pc_instance = .error INDEX_ERROR_MESSAGE) := by
  constructor
  · intro hnone
    have hextract : extract_task_id pc_instance = .ok "" := by
      simp only [extract_task_id, hlast, hnone]
    refine ⟨hextract, ?_⟩
    intro hrun hfail
    rw [get_status, hrun]
    simp only [if_true, hextract]
    rw [if_neg (by simp), if_pos hfail, hfail]
  · intro hempty hrun
    have hextract : extract_task_id pc_instance = .error INDEX_ERROR_MESSAGE := by
      simp [extract_task_id, hlast, hempty]
    rw [get_status, hrun]
    simp only [if_true, hextract]

/-- Witness for the amended C8 at a concrete `None` handle and a concrete
empty containers sequence. -/
theorem missing_handle_amended_witness :
    (extract_task_id
        ⟨"instance_1", .PARTNER, "/data/x.csv", "PC_PRE_VALIDATION",
          [.stageState ⟨"instance_1", "PC_PRE_VALIDATION", [none]⟩]⟩ =
      .ok "" ∧
     get_status ⟨"us-east-1", true, []⟩
        ⟨fun _ => ⟨"cluster/task1", "STARTED"⟩, "my-cluster"⟩
        (fun _ => PrivateComputationInstanceStatus.INPUT_DATA_VALIDATION_FAILED)
        ⟨"instance_1", .PARTNER, "/data/x.csv", "PC_PRE_VALIDATION",
          [.stageState ⟨"instance_1", "PC_PRE_VALIDATION", [none]⟩]⟩ =
      .ok (.INPUT_DATA_VALIDATION_FAILED, [GENERIC_FAILED_MESSAGE])) ∧
    get_status ⟨"us-east-1", true, []⟩
        ⟨fun _ => ⟨"cluster/task1", "STARTED"⟩, "my-cluster"⟩
        (fun _ => PrivateComputationInstanceStatus.INPUT_DATA_VALIDATION_FAILED)
        ⟨"instance_1", .PARTNER, "/data/x.csv", "PC_PRE_VALIDATION",
          [.stageState ⟨"instance_2", "PC_PRE_VALIDATION", []⟩]⟩ =
      .error INDEX_ERROR_MESSAGE := by
  constructor
  · have h := (missing_handle_amended ⟨"us-east-1", true, []⟩
      ⟨fun _ => ⟨"cluster/task1", "STARTED"⟩, "my-cluster"⟩
      (fun _ => PrivateComputationInstanceStatus.INPUT_DATA_VALIDATION_FAILED)
      ⟨"instance_1", .PARTNER, "/data/x.csv", "PC_PRE_VALIDATION",
        [.stageState ⟨"instance_1", "PC_PRE_VALIDATION", [none]⟩]⟩
      ⟨"instance_1", "PC_PRE_VALIDATION", [none]⟩ rfl).1 rfl
    exact ⟨h.1, h.2 rfl rfl⟩
  · exact (missing_handle_amended ⟨"us-east-1", true, []⟩
      ⟨fun _ => ⟨"cluster/task1", "STARTED"⟩, "my-cluster"⟩
      (fun _ => PrivateComputationInstanceStatus.INPUT_DATA_VALIDATION_FAILED)
      ⟨"instance_1", .PARTNER, "/data/x.csv", "PC_PRE_VALIDATION",
        [.stageState ⟨"instance_2", "PC_PRE_VALIDATION", []⟩]⟩
      ⟨"instance_2", "PC_PRE_VALIDATION", []⟩ rfl).2 rfl rfl

/-- **C9.** After aggregation, the CLI's `main` terminates with a failure
signal carrying the aggregated report text when the result is `FAILED`,
prints a success message and exits cleanly when the result is `SUCCESS`, and
terminates with an error for any other result value. -/
theorem cli_main_exit_spec (res : ValidationResult) (report : String) :
    (res = ValidationResult.FAILED →
      cli_main_exit res report = .raised report) ∧
    (res = ValidationResult.SUCCESS →
      cli_main_exit res report = .printedSuccess ("Success: " ++ report)) ∧
    (res ≠ ValidationResult.FAILED → res ≠ ValidationResult.SUCCESS →
      ∃ msg, cli_main_exit res report = .raised msg) := by
  refine ⟨?_, ?_, ?_⟩
  · intro h
    simp [cli_main_exit, h]
  · intro h
    subst h
    simp [cli_main_exit]
  · intro h1 h2
    exact ⟨"Unknown validation result: \x7baggregated_result\x7d.\nValidation report: \x7baggregated_report\x7d",
      by simp [cli_main_exit, h1, h2]⟩

/-- Witness for C9 at the three concrete aggregated results. -/
theorem cli_main_exit_spec_witness :
    cli_main_exit ValidationResult.FAILED "report text" =
      .raised "report text" ∧
    cli_main_exit ValidationResult.SUCCESS "report text" =
      .printedSuccess ("Success: " ++ "report text") ∧
    ∃ msg, cli_main_exit ValidationResult.UNKNOWN "report text" =
      .raised msg := by
  refine ⟨(cli_main_exit_spec ValidationResult.FAILED "report text").1 rfl,
    (cli_main_exit_spec ValidationResult.SUCCESS "report text").2.1 rfl,
    (cli_main_exit_spec ValidationResult.UNKNOWN "report text").2.2
      (by decide) (by decide)⟩

/-- **C10.** For an aggregated result that is neither `SUCCESS` nor `FAILED`,
the raised message is the literal text with the placeholder names
`\x7baggregated_result\x7d` and `\x7baggregated_report\x7d` unsubstituted
(the source string is not an f-string): the message is one fixed constant,
independent of the actual result and report values. -/
theorem cli_unknown_message_literal (res : ValidationResult)
    (report other_report : String)
    (h1 : res ≠ ValidationResult.FAILED)
    (h2 : res ≠ ValidationResult.SUCCESS) :
    cli_main_exit res report =
      .raised ("Unknown validation result: \x7baggregated_result\x7d.\nValidation report: \x7baggregated_report\x7d") ∧
    cli_main_exit res report = cli_main_exit res other_report := by
  constructor
  · simp [cli_main_exit, h1, h2]
  · simp [cli_main_exit, h1, h2]

/-- Witness for C10 at `UNKNOWN` with two different report texts. -/
theorem cli_unknown_message_literal_witness :
    cli_main_exit ValidationResult.UNKNOWN "report text" =
      .raised ("Unknown validation result: \x7baggregated_result\x7d.\nValidation report: \x7baggregated_report\x7d") ∧
    cli_main_exit ValidationResult.UNKNOWN "report text" =
      cli_main_exit ValidationResult.UNKNOWN "a different report" :=
  cli_unknown_message_literal ValidationResult.UNKNOWN
    "report text" "a different report" (by decide) (by decide)

end FBPCS
